import Mathlib

/-
Verification of the resolution/caching/update engine of the smc-python
client (`smc/base/model.py`): the identity locator, the per-instance
cache with its ETag-based optimistic-concurrency protocol, and the
polymorphic type registry / element factory.

The embedding is a shallow one: each Python method of `model.py` becomes a
Lean function over an explicit `ElementState`, threading the state and a
trace of network calls.  The HTTP transport (`smc/api/common.py`,
`smc/api/web.py`, outside the embedded core) is the interface boundary of
spec section 6 and is represented by a `Transport` record of pure
functions; each modelled operation records the calls it makes as a
`List NetCall` so that claims about "exactly one fetch" are statements
about the trace.
-/

set_option autoImplicit false

namespace SMC

/-- JSON values as the client handles them (Python dicts, lists, strings,
booleans, numbers and None).  Arrays and objects are encoded as their own
cons chains (`nilA`/`consA`, `nilO`/`consO`) so that equality stays
derivable; `Json.arr` and `Json.obj` build them from lists. -/
inductive Json where
  | null
  | bool (b : Bool)
  | str (s : String)
  | num (n : Int)
  | nilA
  | consA (hd : Json) (tl : Json)
  | nilO
  | consO (key : String) (val : Json) (tl : Json)
deriving Repr, DecidableEq

/-- Build a JSON array from a list of values. -/
def Json.arr : List Json → Json
  | [] => .nilA
  | x :: xs => .consA x (Json.arr xs)

/-- Build a JSON object from a list of key/value pairs. -/
def Json.obj : List (String × Json) → Json
  | [] => .nilO
  | (k, v) :: rest => .consO k v (Json.obj rest)

/-- Python `d.get(key)`: lookup in an object, `None` when the key is
absent.  (Calling `.get` on a non-dict is a Python-level error; on the
embedded code paths payloads are always dicts.) -/
def Json.get : Json → String → Option Json
  | .consO k v rest, key => if k = key then some v else rest.get key
  | _, _ => none

/-- Python `d[key] = v` on a dict: replace the value of an existing key
in place, or add the key. -/
def Json.set : Json → String → Json → Json
  | .nilO, key, v => .consO key v .nilO
  | .consO k w rest, key, v =>
    if k = key then .consO key v rest else .consO k w (rest.set key v)
  | other, _, _ => other

/-- Python truthiness of a JSON value. -/
def Json.truthy : Json → Bool
  | .null => false
  | .bool b => b
  | .str s => !s.isEmpty
  | .num n => n != 0
  | .nilA => false
  | .consA _ _ => true
  | .nilO => false
  | .consO _ _ _ => true

/-- Python truthiness of an optional JSON value (`None` is falsy). -/
def truthyOpt : Option Json → Bool
  | none => false
  | some j => j.truthy

/-- Extract a string, `None` otherwise. -/
def Json.asStr : Json → Option String
  | .str s => some s
  | _ => none

/-- Is the value a JSON array? -/
def Json.isArr : Json → Bool
  | .nilA => true
  | .consA _ _ => true
  | _ => false

/-- Concatenation of two JSON arrays. -/
def Json.appendArr : Json → Json → Json
  | .consA x xs, b => .consA x (xs.appendArr b)
  | _, b => b

/-- The typed failures of `smc/api/exceptions.py` that the embedded core
raises (error kinds of spec section 7).  `attributeError` stands for a
Python-level `AttributeError`/`TypeError` on an ill-formed payload. -/
inductive SMCError where
  | elementNotFound (msg : String)
  | fetchElementFailed (msg : String)
  | updateElementFailed (msg : String)
  | deleteElementFailed (msg : String)
  | modificationFailed (msg : String)
  | createElementFailed (msg : String)
  | attributeError (msg : String)
deriving Repr, DecidableEq

/-- Outcome of a Python call: a returned value or a raised exception. -/
inductive PyRes (α : Type) where
  | ok (val : α)
  | exn (err : SMCError)
deriving Repr, DecidableEq

/-- `SMCResult` (`smc/api/web.py`, at the interface boundary of spec
section 6): version token, optional JSON body, optional href of the
affected resource, and an error message when the server reported a
failure (`msg = none` means success). -/
structure SMCResult where
  etag : Option String
  json : Option Json
  href : Option String
  msg : Option String
deriving Repr, DecidableEq

/-- The transport collaborator of spec section 6, one pure function per
request kind.  `smc/api/common.py` is outside the embedded core; per the
spec every call is a single synchronous request with no retry, and the
`prepared_request` helper of model.py raises the per-call exception kind
when the result carries a message, or returns the result unchanged when
no exception kind was supplied. -/
structure Transport where
  readReq : String → SMCResult
  updateReq : String → Option Json → Option String → SMCResult
  deleteReq : String → Option String → SMCResult
  searchReq : Option String → String → SMCResult

/-- One network call, as recorded in an operation trace. -/
inductive NetCall where
  | readCall (href : String)
  | updateCall (href : String) (json : Option Json) (etag : Option String)
  | deleteCall (href : String) (etag : Option String)
  | searchCall (name : Option String) (context : String)
deriving Repr, DecidableEq

/-- `Meta` (model.py, line 605): the identity triple returned by server
searches.  `href` is the one required component
(`Meta.__new__(cls, href, name=None, type=None)`). -/
structure Meta where
  name : Option String
  href : String
  type : Option String
deriving Repr, DecidableEq

/-- `Meta(**d)` applied to one search hit: requires an `href` key. -/
def metaOfJson (j : Json) : Option Meta :=
  match (j.get "href").bind Json.asStr with
  | some h =>
    some { name := (j.get "name").bind Json.asStr
           href := h
           type := (j.get "type").bind Json.asStr }
  | none => none

/-- A representation class of the registry: its name and its class-level
`typeof` tag (the generic `Element` has none). -/
structure SMCClass where
  name : String
  typeof : Option String
deriving Repr, DecidableEq

/-- The generic `Element` representation, the registry default. -/
def elementClass : SMCClass := { name := "Element", typeof := none }

/-- `lookup_class` (model.py, line 601):
`Registry._registry.get(typeof, Element)`.  The registry itself
(`smc/base/resource.py`, outside the embedded core) is per the spec a
process-wide mapping from resource-kind tag to representation class,
passed here explicitly as an association list. -/
def lookup_class (registry : List (String × SMCClass)) (typeof : Option String) :
    SMCClass :=
  (typeof.bind (fun t => registry.lookup t)).getD elementClass

/-- Modelled from the spec: `merge_dicts` (`smc/base/util.py`, not under
src/).  Spec section 4.3: "merges the given fields ... list-valued fields
are replaced by default, or appended to if the caller opts in"; the
section 8 scenarios fix `tags=["a"], append_lists=True` on
`{"tags":["b"]}` to `{"tags":["b","a"]}` and the default to overwrite.
One field: -/
def mergeField (target : Json) (key : String) (v : Json) (appendLists : Bool) :
    Json :=
  match target.get key with
  | some old =>
    if appendLists && v.isArr && old.isArr then target.set key (old.appendArr v)
    else target.set key v
  | none => target.set key v

/-- Modelled from the spec (see `mergeField`): merge every given field
into the target dict. -/
def merge_dicts (target : Json) (fields : List (String × Json))
    (appendLists : Bool) : Json :=
  fields.foldl (fun acc kv => mergeField acc kv.1 kv.2 appendLists) target

/-- Modelled from the spec: helper for `find_type_from_self` — scan the
link list for the entry whose `rel` is `"self"` and read its kind tag. -/
def findSelfType : Json → Option String
  | .consA link rest =>
    if link.get "rel" == some (.str "self")
    then (link.get "type").bind Json.asStr
    else findSelfType rest
  | _ => none

/-- Modelled from the spec: `find_type_from_self` (`smc/base/util.py`,
not under src/).  Spec section 4.4: the factory "inspects its payload's
self-describing link set to derive a resource-kind tag" — the entry whose
`rel` is `"self"` carries the kind tag. -/
def find_type_from_self : Option Json → Option String
  | some links => findSelfType links
  | none => none

/-- The observable state of one resource instance: its class, the
`_name` attribute, the class-level `typeof` tag, the identity `meta`,
the cache (`none` both when the `cache` attribute is absent and when
`Cache._cache is None` — indistinguishable through `Cache.__call__`),
and the link table (`none` while the `resource` attribute has not been
built).  The cache entry is `(etag, json)` exactly as `Cache._cache`. -/
structure ElementState where
  cls : String
  nameAttr : Option String
  typeof : Option String
  meta : Option Meta
  cache : Option (Option String × Option Json)
  resource : Option (List (String × Option Json))
deriving Repr, DecidableEq

/-- `ElementLocator.__get__` (model.py, lines 272-292), the behaviour of
reading `instance.href`: if the instance already has meta, return its
href; otherwise, when the class declares `typeof`, issue one name+kind
search (`fetch_href_by_name`, the `search` boundary call of spec section
6), bind `Meta(**element.json[0])` on a non-empty result and return its
href, or raise `ElementNotFound`; without `typeof` raise
`ElementNotFound` (type not directly addressable). -/
def ElementLocator.get (t : Transport) (s : ElementState) :
    PyRes String × ElementState × List NetCall :=
  match s.meta with
  | some m => (.ok m.href, s, [])
  | none =>
    match s.typeof with
    | some ty =>
      let result := t.searchReq s.nameAttr ty
      let tr := [NetCall.searchCall s.nameAttr ty]
      if truthyOpt result.json then
        match result.json with
        | some (.consA j _) =>
          match metaOfJson j with
          | some m => (.ok m.href, { s with meta := some m }, tr)
          | none => (.exn (.attributeError "Meta() requires an href"), s, tr)
        | _ => (.exn (.attributeError "search result is not a list"), s, tr)
      else
        (.exn (.elementNotFound "Cannot find specified element"), s, tr)
    | none =>
      (.exn (.elementNotFound "This class does not have the required attribute"),
       s, [])

/-- One link entry of a payload's `link` list: `rel` (attribute name,
must be a string) and its `href` value, as stored by
`setattr(res, link.get('rel'), link.get('href'))`. -/
def linkEntries : Json → Option (List (String × Option Json))
  | .nilA => some []
  | .consA link rest =>
    match (link.get "rel").bind Json.asStr with
    | some rel =>
      match linkEntries rest with
      | some tl => some ((rel, link.get "href") :: tl)
      | none => none
    | none => none
  | _ => none

/-- `ElementBase.resource` construction (model.py, lines 323-328): build
the link table from the payload's `link` list.  `none` models the
Python-level error when the payload has no iterable `link` list or an
entry has no string `rel`. -/
def buildLinks (payload : Json) : Option (List (String × Option Json)) :=
  match payload.get "link" with
  | some links => linkEntries links
  | none => none

/-- The fetch branch of `Cache.__call__` (model.py, lines 225-231):
resolve `self.instance.href` (the locator), issue one read
(`FetchElementFailed` on a reported error), store `(etag, json)` in the
cache, then `getattr(self.instance, 'resource')` — which, `cached_property`
being a non-data descriptor, builds the link table only when the
instance does not already hold one. -/
def Cache.fetchInto (t : Transport) (s : ElementState) :
    PyRes (Option String × Option Json) × ElementState × List NetCall :=
  match ElementLocator.get t s with
  | (.exn e, s1, tr) => (.exn e, s1, tr)
  | (.ok href, s1, tr) =>
    let result := t.readReq href
    let tr := tr ++ [NetCall.readCall href]
    match result.msg with
    | some m => (.exn (.fetchElementFailed m), s1, tr)
    | none =>
      let c := (result.etag, result.json)
      let s2 := { s1 with cache := some c }
      match s2.resource with
      | some _ => (.ok c, s2, tr)
      | none =>
        match result.json with
        | some j =>
          match buildLinks j with
          | some table => (.ok c, { s2 with resource := some table }, tr)
          | none => (.exn (.attributeError "link list"), s2, tr)
        | none => (.exn (.attributeError "payload is None"), s2, tr)

/-- `Cache.__call__` (model.py, lines 223-232): return the cached pair,
fetching when the cache is empty or a forced refresh is requested. -/
def Cache.call (t : Transport) (s : ElementState) (forceRefresh : Bool) :
    PyRes (Option String × Option Json) × ElementState × List NetCall :=
  match s.cache with
  | some c => if forceRefresh then Cache.fetchInto t s else (.ok c, s, [])
  | none => Cache.fetchInto t s

/-- `Cache.data` (model.py, lines 234-236): the payload half of the
cached pair. -/
def Cache.data (t : Transport) (s : ElementState) :
    PyRes (Option Json) × ElementState × List NetCall :=
  match Cache.call t s false with
  | (.ok c, s1, tr) => (.ok c.2, s1, tr)
  | (.exn e, s1, tr) => (.exn e, s1, tr)

/-- `Cache.etag` (model.py, lines 238-247): the token half of the cached
pair; when the cache was manually seeded without a token, perform one
backfill read and keep the previously cached payload
(`self._cache = (etag.etag, self._cache[1])`). -/
def Cache.etag (t : Transport) (s : ElementState) :
    PyRes (Option String) × ElementState × List NetCall :=
  match Cache.call t s false with
  | (.exn e, s1, tr) => (.exn e, s1, tr)
  | (.ok c, s1, tr) =>
    match c.1 with
    | some tok => (.ok (some tok), s1, tr)
    | none =>
      match ElementLocator.get t s1 with
      | (.exn e, s2, tr2) => (.exn e, s2, tr ++ tr2)
      | (.ok href, s2, tr2) =>
        let result := t.readReq href
        let tr3 := tr ++ tr2 ++ [NetCall.readCall href]
        match result.msg with
        | some m => (.exn (.fetchElementFailed m), s2, tr3)
        | none =>
          (.ok result.etag,
           { s2 with cache := some (result.etag, c.2) }, tr3)

/-- `ElementBase.data` (model.py, lines 330-332). -/
def ElementBase.data (t : Transport) (s : ElementState) :
    PyRes (Option Json) × ElementState × List NetCall :=
  Cache.data t s

/-- `ElementBase.etag` (model.py, lines 334-339). -/
def ElementBase.etag (t : Transport) (s : ElementState) :
    PyRes (Option String) × ElementState × List NetCall :=
  Cache.etag t s

/-- `ElementBase.delete` (model.py, lines 349-360): one delete request
against `self.href` with `{'if-match': self.etag}`, raising
`DeleteElementFailed` when the server reports an error.  Nothing in the
method touches the instance's local state. -/
def ElementBase.delete (t : Transport) (s : ElementState) :
    PyRes Unit × ElementState × List NetCall :=
  match ElementLocator.get t s with
  | (.exn e, s1, tr) => (.exn e, s1, tr)
  | (.ok href, s1, tr) =>
    match ElementBase.etag t s1 with
    | (.exn e, s2, tr2) => (.exn e, s2, tr ++ tr2)
    | (.ok tok, s2, tr2) =>
      let result := t.deleteReq href tok
      let tr3 := tr ++ tr2 ++ [NetCall.deleteCall href tok]
      match result.msg with
      | some m => (.exn (.deleteElementFailed m), s2, tr3)
      | none => (.ok (), s2, tr3)

/-- `ElementBase.update` (model.py, lines 362-390).  Keyword overrides
`href`, `json`, `etag` default to `self.href`, a deep copy of
`self.data` (deep copying is the identity on immutable `Json` values)
and `self.etag`; then `del self.cache` — the cache is deleted BEFORE the
request is sent — then one update request, raising the per-call
exception kind (default `UpdateElementFailed`) when the server reports
an error, and otherwise returning the href reported by the server. -/
def ElementBase.update (t : Transport) (s : ElementState)
    (exc : Option (String → SMCError)) (hrefArg : Option String)
    (jsonArg : Option Json) (etagArg : Option String) :
    PyRes (Option String) × ElementState × List NetCall :=
  match (match hrefArg with
         | some h => (PyRes.ok h, s, [])
         | none => ElementLocator.get t s) with
  | (.exn e, s1, tr1) => (.exn e, s1, tr1)
  | (.ok href, s1, tr1) =>
    match (match jsonArg with
           | some j => (PyRes.ok (some j), s1, [])
           | none => ElementBase.data t s1) with
    | (.exn e, s2, tr2) => (.exn e, s2, tr1 ++ tr2)
    | (.ok body, s2, tr2) =>
      match (match etagArg with
             | some tok => (PyRes.ok (some tok), s2, [])
             | none => ElementBase.etag t s2) with
      | (.exn e, s3, tr3) => (.exn e, s3, tr1 ++ tr2 ++ tr3)
      | (.ok tok, s3, tr3) =>
        let s4 := { s3 with cache := none }
        let raiseAs := exc.getD SMCError.updateElementFailed
        let result := t.updateReq href body tok
        let tr := tr1 ++ tr2 ++ tr3 ++ [NetCall.updateCall href body tok]
        match result.msg with
        | some m => (.exn (raiseAs m), s4, tr)
        | none => (.ok result.href, s4, tr)

/-- The in-place effect on the instance of
`merge_dicts(self.data, kwargs, append_lists)` (model.py, line 410):
the first argument of `merge_dicts` IS the payload object held in the
live cache, so the merge result replaces it inside the cache entry (the
return value of `merge_dicts` is discarded; the subsequent parameterless
`self.update()` can only see the merged fields through this mutation). -/
def ElementBase.mergeStep (s : ElementState) (fields : List (String × Json))
    (appendLists : Bool) : ElementState :=
  match s.cache with
  | some (tok, some payload) =>
    { s with cache := some (tok, some (merge_dicts payload fields appendLists)) }
  | _ => s

/-- `ElementBase.modify_attribute` (model.py, lines 392-411): raise
`ModificationFailed` when `self.data.get('system') is True`; otherwise
merge the fields into the cached payload (`mergeStep`) and delegate to
`self.update()` with no overrides. -/
def ElementBase.modify_attribute (t : Transport) (s : ElementState)
    (fields : List (String × Json)) (appendLists : Bool) :
    PyRes (Option String) × ElementState × List NetCall :=
  match ElementBase.data t s with
  | (.exn e, s1, tr1) => (.exn e, s1, tr1)
  | (.ok payloadOpt, s1, tr1) =>
    match payloadOpt with
    | none => (.exn (.attributeError "payload is None"), s1, tr1)
    | some payload =>
      if payload.get "system" = some (.bool true) then
        (.exn (.modificationFailed
          ("Cannot modify system element: " ++ s1.nameAttr.getD "None")), s1, tr1)
      else
        let s2 := ElementBase.mergeStep s1 fields appendLists
        match ElementBase.update t s2 none none none none with
        | (r, s3, tr2) => (r, s3, tr1 ++ tr2)

/-- `ElementFactory` (model.py, lines 135-148): one read of the href with
no exception kind (so a reported failure yields `json = None` rather
than a raised error); on a truthy body, derive the kind tag from the
self link, look the class up in the registry, and return an instance of
that class pre-seeded with `Cache(e, element.json, element.etag)`;
otherwise fall through and return `None`. -/
def ElementFactory (registry : List (String × SMCClass)) (t : Transport)
    (href : String) : Option ElementState × List NetCall :=
  let element := t.readReq href
  let tr := [NetCall.readCall href]
  if truthyOpt element.json then
    match element.json with
    | some j =>
      let istype := find_type_from_self (j.get "link")
      let cls := lookup_class registry istype
      let e : ElementState :=
        { cls := cls.name
          nameAttr := (j.get "name").bind Json.asStr
          typeof := cls.typeof
          meta := some { name := (j.get "name").bind Json.asStr
                         href := href
                         type := istype }
          cache := some (element.etag, some j)
          resource := none }
      (some e, tr)
    | none => (none, tr)
  else (none, tr)

/-- `Element.from_href` (model.py, lines 435-442): delegates to
`ElementFactory`. -/
def Element.from_href (registry : List (String × SMCClass)) (t : Transport)
    (href : String) : Option ElementState × List NetCall :=
  ElementFactory registry t href

/-! ### Concrete fixtures

A host element as in the spec section 8 scenarios (name "kali",
href "/elements/host/12", kind "host"), together with transports for the
server behaviours the claims exercise. -/

/-- The link list of the sample payload: one self link of kind host. -/
def sampleLinks : Json :=
  Json.arr [Json.obj [("rel", Json.str "self"),
                      ("href", Json.str "/elements/host/12"),
                      ("type", Json.str "host")]]

/-- A fetched host payload. -/
def samplePayload : Json :=
  Json.obj [("name", Json.str "kali"),
            ("system", Json.bool false),
            ("link", sampleLinks)]

/-- The link table built from `samplePayload`. -/
def sampleTable : List (String × Option Json) :=
  [("self", some (Json.str "/elements/host/12"))]

/-- A second server payload for the same element, whose link list gained
an export link (spec: "link sets can differ by state of the underlying
resource"). -/
def payload2 : Json :=
  Json.obj [("name", Json.str "kali"),
            ("system", Json.bool false),
            ("link", Json.arr
              [Json.obj [("rel", Json.str "self"),
                         ("href", Json.str "/elements/host/12"),
                         ("type", Json.str "host")],
               Json.obj [("rel", Json.str "export"),
                         ("href", Json.str "/elements/host/12/export")]])]

/-- The identity of the sample host. -/
def sampleMeta : Meta :=
  { name := some "kali", href := "/elements/host/12", type := some "host" }

/-- A fully hydrated instance: identity bound, cache populated with
token "etag-1" and `samplePayload`, link table built. -/
def sampleState : ElementState :=
  { cls := "Host"
    nameAttr := some "kali"
    typeof := some "host"
    meta := some sampleMeta
    cache := some (some "etag-1", some samplePayload)
    resource := some sampleTable }

/-- An instance with bound identity but nothing fetched yet. -/
def freshState : ElementState :=
  { sampleState with cache := none, resource := none }

/-- An instance constructed from a name only: no meta yet. -/
def noMetaState : ElementState :=
  { sampleState with meta := none, cache := none, resource := none }

/-- A system-protected payload. -/
def systemPayload : Json :=
  Json.obj [("name", Json.str "ANY"),
            ("system", Json.bool true),
            ("link", sampleLinks)]

/-- A hydrated instance holding a system-protected payload. -/
def systemState : ElementState :=
  { sampleState with nameAttr := some "ANY"
                     cache := some (some "etag-1", some systemPayload) }

/-- A payload built client-side before any fetch. -/
def clientPayload : Json :=
  Json.obj [("name", Json.str "kali"), ("address", Json.str "1.1.1.1")]

/-- An instance whose cache was manually seeded with a payload but no
version token (`Cache(instance, json)` with no etag). -/
def seededState : ElementState :=
  { sampleState with cache := some (none, some clientPayload) }

/-- An empty successful transport result. -/
def okResult : SMCResult :=
  { etag := none, json := none, href := none, msg := none }

/-- A server on which everything succeeds: reads return `payload2` with
token "etag-2", updates and deletes are acknowledged, and the name+kind
search finds the sample host. -/
def happyTransport : Transport :=
  { readReq := fun _ =>
      { etag := some "etag-2", json := some payload2, href := none, msg := none }
    updateReq := fun h _ _ => { okResult with href := some h }
    deleteReq := fun _ _ => okResult
    searchReq := fun _ _ =>
      { okResult with json := some (Json.arr
          [Json.obj [("name", Json.str "kali"),
                     ("href", Json.str "/elements/host/12"),
                     ("type", Json.str "host")]]) } }

/-- A server that rejects every write with a version-token conflict but
serves reads normally. -/
def conflictTransport : Transport :=
  { happyTransport with
      updateReq := fun _ _ _ => { okResult with msg := some "Conflict" }
      deleteReq := fun _ _ => { okResult with msg := some "Conflict" } }

/-- A server whose reads fail: no JSON body is returned (the factory
passes no exception kind, so the failure surfaces as an empty body). -/
def emptyReadTransport : Transport :=
  { happyTransport with
      readReq := fun _ =>
        { etag := none, json := none, href := none, msg := some "not found" } }

/-- The Host representation class, registered under tag "host". -/
def hostClass : SMCClass := { name := "Host", typeof := some "host" }

/-- A registry knowing only the host kind. -/
def sampleRegistry : List (String × SMCClass) := [("host", hostClass)]

/-! ### Claims -/

/-- C1, counterexample: on a populated instance whose update is rejected
by the server, `update()` does raise the update-failed error, but the
local cache is NOT what it was before the call — `del self.cache` runs
before the request is sent, so the populated entry has been cleared. -/
theorem update_conflict_not_atomic_cex :
    (ElementBase.update conflictTransport sampleState none none none none).1 =
      PyRes.exn (SMCError.updateElementFailed "Conflict") ∧
    (ElementBase.update conflictTransport sampleState none none none none).2.1.cache
      ≠ sampleState.cache := by
  refine ⟨rfl, ?_⟩
  decide

/-- C1, amended: `update()` with no overrides on a populated instance
whose write the server rejects raises update-failed, and the cache is
cleared (deleted before the request is issued, not preserved), so after
the failed call the cache is empty and the next read re-fetches; the
identity is untouched and exactly one update request with the cached
payload and last observed token was sent. -/
theorem update_conflict_raises_and_clears_cache (t : Transport)
    (s : ElementState) (m : Meta) (tok : String) (p : Json) (err : String)
    (hm : s.meta = some m)
    (hc : s.cache = some (some tok, some p))
    (hrej : (t.updateReq m.href (some p) (some tok)).msg = some err) :
    ElementBase.update t s none none none none =
      (PyRes.exn (SMCError.updateElementFailed err), { s with cache := none },
       [NetCall.updateCall m.href (some p) (some tok)]) := by
  simp [ElementBase.update, ElementLocator.get, ElementBase.data, Cache.data,
        Cache.call, ElementBase.etag, Cache.etag, hm, hc, hrej]

/-- C1, witness: the amended theorem applied to the sample host against
the conflicting server. -/
theorem update_conflict_raises_and_clears_cache_witness :
    ElementBase.update conflictTransport sampleState none none none none =
      (PyRes.exn (SMCError.updateElementFailed "Conflict"),
       { sampleState with cache := none },
       [NetCall.updateCall "/elements/host/12" (some samplePayload)
         (some "etag-1")]) :=
  update_conflict_raises_and_clears_cache conflictTransport sampleState
    sampleMeta "etag-1" samplePayload "Conflict" rfl rfl rfl

/-- C2, counterexample: the merge performed by `modify_attribute`
(model.py line 410, `merge_dicts(self.data, kwargs, append_lists)`) DOES
mutate the payload object held in the live cache: after the merge step
the cache entry differs from the one before the call, holding the merged
payload. -/
theorem modify_attribute_mutates_live_cache_cex :
    (ElementBase.mergeStep sampleState [("comment", Json.str "test")] false).cache
      ≠ sampleState.cache ∧
    (ElementBase.mergeStep sampleState [("comment", Json.str "test")] false).cache
      = some (some "etag-1",
          some (merge_dicts samplePayload [("comment", Json.str "test")] false)) := by
  refine ⟨?_, rfl⟩
  decide

/-- C2, amended: `modify_attribute(**fields)` on a populated,
non-system-protected instance merges the given fields into the live
cached payload IN PLACE (the merge target is the cache's own payload
object), then `update()` sends a deep copy of that merged payload with
the last observed token and invalidates the cache; the request body is
the merged payload, but the live cache is mutated by the merge before
being discarded. -/
theorem modify_attribute_merges_and_updates (t : Transport)
    (s : ElementState) (m : Meta) (tok : String) (p : Json)
    (fields : List (String × Json)) (appendLists : Bool)
    (hm : s.meta = some m)
    (hc : s.cache = some (some tok, some p))
    (hsys : p.get "system" ≠ some (Json.bool true))
    (hok : (t.updateReq m.href (some (merge_dicts p fields appendLists))
              (some tok)).msg = none) :
    ElementBase.modify_attribute t s fields appendLists =
      (PyRes.ok (t.updateReq m.href (some (merge_dicts p fields appendLists))
          (some tok)).href,
       { s with cache := none },
       [NetCall.updateCall m.href (some (merge_dicts p fields appendLists))
         (some tok)]) ∧
    (ElementBase.mergeStep s fields appendLists).cache =
      some (some tok, some (merge_dicts p fields appendLists)) := by
  constructor
  · simp [ElementBase.modify_attribute, ElementBase.data, Cache.data,
          Cache.call, hc, hsys, ElementBase.mergeStep, ElementBase.update,
          ElementLocator.get, hm, ElementBase.etag, Cache.etag, hok]
  · simp [ElementBase.mergeStep, hc]

/-- C2, witness: adding a comment to the sample host sends exactly one
update carrying the merged body, and the merge step had replaced the
live cached payload with that merged body. -/
theorem modify_attribute_merges_and_updates_witness :
    ElementBase.modify_attribute happyTransport sampleState
        [("comment", Json.str "test")] false =
      (PyRes.ok (some "/elements/host/12"), { sampleState with cache := none },
       [NetCall.updateCall "/elements/host/12"
         (some (merge_dicts samplePayload [("comment", Json.str "test")] false))
         (some "etag-1")]) ∧
    (ElementBase.mergeStep sampleState [("comment", Json.str "test")] false).cache =
      some (some "etag-1",
        some (merge_dicts samplePayload [("comment", Json.str "test")] false)) :=
  modify_attribute_merges_and_updates happyTransport sampleState sampleMeta
    "etag-1" samplePayload [("comment", Json.str "test")] false rfl rfl
    (by decide) rfl

/-- C3, counterexample: an instance that already built its link table
from an earlier payload and whose cache was invalidated repopulates from
the server (the cache transitions to populated with the new `payload2`),
yet its link table is NOT rebuilt from the new payload's link list —
`getattr(instance, 'resource')` finds the attribute already present and
the stale table survives. -/
theorem link_table_not_rebuilt_cex :
    (Cache.call happyTransport { sampleState with cache := none } false).2.1.cache
      = some (some "etag-2", some payload2) ∧
    (Cache.call happyTransport { sampleState with cache := none } false).2.1.resource
      ≠ buildLinks payload2 := by
  refine ⟨rfl, ?_⟩
  decide

/-- C3, amended: when the cache transitions to populated, the link table
is built from the fetched payload's link list only if the instance does
not already hold one (the first population); on a repopulation after
invalidation the previously built table is retained, because mutation
deletes only the `cache` attribute and `cached_property` never
recomputes an attribute that is still present. -/
theorem cache_population_link_table (t : Transport) (s : ElementState)
    (m : Meta) (j : Json) (tbl : List (String × Option Json))
    (hm : s.meta = some m) (hc : s.cache = none)
    (hmsg : (t.readReq m.href).msg = none)
    (hjson : (t.readReq m.href).json = some j)
    (hb : buildLinks j = some tbl) :
    (s.resource = none →
      Cache.call t s false =
        (PyRes.ok ((t.readReq m.href).etag, some j),
         { s with cache := some ((t.readReq m.href).etag, some j),
                  resource := some tbl },
         [NetCall.readCall m.href])) ∧
    (∀ old, s.resource = some old →
      Cache.call t s false =
        (PyRes.ok ((t.readReq m.href).etag, some j),
         { s with cache := some ((t.readReq m.href).etag, some j) },
         [NetCall.readCall m.href])) := by
  constructor
  · intro hres
    simp [Cache.call, Cache.fetchInto, ElementLocator.get, hm, hc, hmsg,
          hjson, hb, hres]
  · intro old hres
    simp [Cache.call, Cache.fetchInto, ElementLocator.get, hm, hc, hmsg,
          hjson, hb, hres]

/-- C3, witness: a first population of the fresh sample host builds the
link table of `payload2`; a repopulation of the already-hydrated
instance (cache invalidated, stale table present) does not. -/
theorem cache_population_link_table_witness :
    (freshState.resource = none →
      Cache.call happyTransport freshState false =
        (PyRes.ok (some "etag-2", some payload2),
         { freshState with cache := some (some "etag-2", some payload2),
                           resource := some
                             [("self", some (Json.str "/elements/host/12")),
                              ("export",
                               some (Json.str "/elements/host/12/export"))] },
         [NetCall.readCall "/elements/host/12"])) ∧
    (∀ old, freshState.resource = some old →
      Cache.call happyTransport freshState false =
        (PyRes.ok (some "etag-2", some payload2),
         { freshState with cache := some (some "etag-2", some payload2) },
         [NetCall.readCall "/elements/host/12"])) :=
  cache_population_link_table happyTransport freshState sampleMeta payload2
    [("self", some (Json.str "/elements/host/12")),
     ("export", some (Json.str "/elements/host/12/export"))]
    rfl rfl rfl rfl rfl

/-- C4, counterexample: after a successful `delete()` the instance is
not in a terminal state — reading `data` still succeeds, served from the
untouched cache with zero network calls, contradicting "no further
operation on that instance succeeds". -/
theorem delete_no_terminal_state_cex :
    (ElementBase.delete happyTransport sampleState).1 = PyRes.ok () ∧
    ElementBase.data happyTransport
        (ElementBase.delete happyTransport sampleState).2.1 =
      (PyRes.ok (some samplePayload),
       (ElementBase.delete happyTransport sampleState).2.1, []) :=
  ⟨rfl, rfl⟩

/-- C4, amended: `delete()` issues exactly one delete request against
the instance's href with the most recently observed version token as the
if-match precondition; on success it leaves the local state entirely
unchanged (no DELETED state exists), so subsequent cached reads still
succeed locally on the stale payload. -/
theorem delete_sends_ifmatch_keeps_state (t : Transport) (s : ElementState)
    (m : Meta) (tok : String) (pl : Option Json)
    (hm : s.meta = some m) (hc : s.cache = some (some tok, pl))
    (hok : (t.deleteReq m.href (some tok)).msg = none) :
    ElementBase.delete t s =
      (PyRes.ok (), s, [NetCall.deleteCall m.href (some tok)]) ∧
    ElementBase.data t s = (PyRes.ok pl, s, []) := by
  constructor
  · simp [ElementBase.delete, ElementLocator.get, hm, ElementBase.etag,
          Cache.etag, Cache.call, hc, hok]
  · simp [ElementBase.data, Cache.data, Cache.call, hc]

/-- C4, witness: deleting the sample host sends the delete with token
"etag-1" and leaves the instance state intact. -/
theorem delete_sends_ifmatch_keeps_state_witness :
    ElementBase.delete happyTransport sampleState =
      (PyRes.ok (), sampleState,
       [NetCall.deleteCall "/elements/host/12" (some "etag-1")]) ∧
    ElementBase.data happyTransport sampleState =
      (PyRes.ok (some samplePayload), sampleState, []) :=
  delete_sends_ifmatch_keeps_state happyTransport sampleState sampleMeta
    "etag-1" (some samplePayload) rfl rfl rfl

/-- C5: on an instance constructed from a name only (no meta), whose
class declares a `typeof` tag and whose name+kind search returns at
least one match, the first `href` access performs exactly one search
call, binds the first returned identity onto the instance and returns
its href; a second access returns the same href with zero additional
search calls. -/
theorem locator_one_search_memoized (t : Transport) (s : ElementState)
    (ty : String) (j rest : Json) (m : Meta)
    (hmeta : s.meta = none) (hty : s.typeof = some ty)
    (hsearch : (t.searchReq s.nameAttr ty).json = some (Json.consA j rest))
    (hj : metaOfJson j = some m) :
    ElementLocator.get t s =
      (PyRes.ok m.href, { s with meta := some m },
       [NetCall.searchCall s.nameAttr ty]) ∧
    ElementLocator.get t { s with meta := some m } =
      (PyRes.ok m.href, { s with meta := some m }, []) := by
  constructor
  · simp [ElementLocator.get, hmeta, hty, hsearch, hj, truthyOpt, Json.truthy]
  · simp [ElementLocator.get]

/-- C5, witness: resolving name "kali", kind "host" against the sample
server performs one search, binds href "/elements/host/12", and the
second access is local. -/
theorem locator_one_search_memoized_witness :
    ElementLocator.get happyTransport noMetaState =
      (PyRes.ok "/elements/host/12", { noMetaState with meta := some sampleMeta },
       [NetCall.searchCall (some "kali") "host"]) ∧
    ElementLocator.get happyTransport { noMetaState with meta := some sampleMeta } =
      (PyRes.ok "/elements/host/12", { noMetaState with meta := some sampleMeta },
       []) :=
  locator_one_search_memoized happyTransport noMetaState "host"
    (Json.obj [("name", Json.str "kali"),
               ("href", Json.str "/elements/host/12"),
               ("type", Json.str "host")]) Json.nilA sampleMeta
    rfl rfl rfl rfl

/-- C6: on an instance with known href and empty cache, the first `data`
access performs exactly one fetch and populates cache and link table;
the second access with no mutation in between returns the same payload
with zero further network calls — one fetch in total. -/
theorem data_cached_one_fetch (t : Transport) (s : ElementState)
    (m : Meta) (j : Json) (tbl : List (String × Option Json))
    (hm : s.meta = some m) (hc : s.cache = none) (hr : s.resource = none)
    (hmsg : (t.readReq m.href).msg = none)
    (hjson : (t.readReq m.href).json = some j)
    (hb : buildLinks j = some tbl) :
    ElementBase.data t s =
      (PyRes.ok (some j),
       { s with cache := some ((t.readReq m.href).etag, some j),
                resource := some tbl },
       [NetCall.readCall m.href]) ∧
    ElementBase.data t
        { s with cache := some ((t.readReq m.href).etag, some j),
                 resource := some tbl } =
      (PyRes.ok (some j),
       { s with cache := some ((t.readReq m.href).etag, some j),
                resource := some tbl },
       []) := by
  constructor
  · simp [ElementBase.data, Cache.data, Cache.call, Cache.fetchInto,
          ElementLocator.get, hm, hc, hr, hmsg, hjson, hb]
  · simp [ElementBase.data, Cache.data, Cache.call]

/-- C6, witness: two `data` accesses on the fresh sample host perform
one fetch in total and both yield `payload2`. -/
theorem data_cached_one_fetch_witness :
    ElementBase.data happyTransport freshState =
      (PyRes.ok (some payload2),
       { freshState with cache := some (some "etag-2", some payload2),
                         resource := some
                           [("self", some (Json.str "/elements/host/12")),
                            ("export",
                             some (Json.str "/elements/host/12/export"))] },
       [NetCall.readCall "/elements/host/12"]) ∧
    ElementBase.data happyTransport
        { freshState with cache := some (some "etag-2", some payload2),
                          resource := some
                            [("self", some (Json.str "/elements/host/12")),
                             ("export",
                              some (Json.str "/elements/host/12/export"))] } =
      (PyRes.ok (some payload2),
       { freshState with cache := some (some "etag-2", some payload2),
                         resource := some
                           [("self", some (Json.str "/elements/host/12")),
                            ("export",
                             some (Json.str "/elements/host/12/export"))] },
       []) :=
  data_cached_one_fetch happyTransport freshState sampleMeta payload2
    [("self", some (Json.str "/elements/host/12")),
     ("export", some (Json.str "/elements/host/12/export"))]
    rfl rfl rfl rfl rfl rfl

/-- C7: `ElementFactory(href)` on an href whose fetch yields a truthy
payload returns an instance of exactly the class the registry associates
with the payload's self-link kind tag, pre-seeded with the fetched
payload and token so that a subsequent `data` access performs no further
fetch; registry lookup returns the registered class for a registered tag
and the generic `Element` class for an unregistered one. -/
theorem factory_roundtrip (registry : List (String × SMCClass))
    (t : Transport) (href : String) (j : Json)
    (hjson : (t.readReq href).json = some j) (htr : j.truthy = true) :
    (∃ e : ElementState,
      ElementFactory registry t href = (some e, [NetCall.readCall href]) ∧
      e.cls = (lookup_class registry (find_type_from_self (j.get "link"))).name ∧
      e.cache = some ((t.readReq href).etag, some j) ∧
      ElementBase.data t e = (PyRes.ok (some j), e, [])) ∧
    (∀ tag c, registry.lookup tag = some c →
      lookup_class registry (some tag) = c) ∧
    (∀ tag, registry.lookup tag = none →
      lookup_class registry (some tag) = elementClass) := by
  refine ⟨⟨{ cls := (lookup_class registry (find_type_from_self (j.get "link"))).name
             nameAttr := (j.get "name").bind Json.asStr
             typeof := (lookup_class registry (find_type_from_self (j.get "link"))).typeof
             meta := some { name := (j.get "name").bind Json.asStr
                            href := href
                            type := find_type_from_self (j.get "link") }
             cache := some ((t.readReq href).etag, some j)
             resource := none }, ?_, rfl, rfl, ?_⟩, ?_, ?_⟩
  · simp [ElementFactory, hjson, truthyOpt, htr]
  · simp [ElementBase.data, Cache.data, Cache.call]
  · intro tag c h
    simp [lookup_class, h]
  · intro tag h
    simp [lookup_class, h]

/-- C7, witness: the factory applied to the sample href against the
registry knowing "host" — the payload's self link carries tag "host",
so the returned instance is a Host, pre-populated. -/
theorem factory_roundtrip_witness :
    ∃ e : ElementState,
      ElementFactory sampleRegistry happyTransport "/elements/host/12" =
        (some e, [NetCall.readCall "/elements/host/12"]) ∧
      e.cls = (lookup_class sampleRegistry
        (find_type_from_self (payload2.get "link"))).name ∧
      e.cache = some ((happyTransport.readReq "/elements/host/12").etag,
        some payload2) ∧
      ElementBase.data happyTransport e = (PyRes.ok (some payload2), e, []) :=
  (factory_roundtrip sampleRegistry happyTransport "/elements/host/12"
    payload2 rfl rfl).1

/-- C8: `modify_attribute` on a populated instance whose payload marks
the resource as system-protected (`system == true`) raises the
modification-forbidden error, leaves the state unchanged and issues zero
network calls. -/
theorem modify_attribute_system_forbidden (t : Transport) (s : ElementState)
    (tok : Option String) (p : Json) (fields : List (String × Json))
    (appendLists : Bool)
    (hc : s.cache = some (tok, some p))
    (hsys : p.get "system" = some (Json.bool true)) :
    ElementBase.modify_attribute t s fields appendLists =
      (PyRes.exn (SMCError.modificationFailed
        ("Cannot modify system element: " ++ s.nameAttr.getD "None")), s, []) := by
  simp [ElementBase.modify_attribute, ElementBase.data, Cache.data,
        Cache.call, hc, hsys]

/-- C8, witness: modifying the system-protected sample element fails
fast with zero network calls. -/
theorem modify_attribute_system_forbidden_witness :
    ElementBase.modify_attribute happyTransport systemState
        [("comment", Json.str "test")] false =
      (PyRes.exn (SMCError.modificationFailed
        "Cannot modify system element: ANY"), systemState, []) :=
  modify_attribute_system_forbidden happyTransport systemState
    (some "etag-1") systemPayload [("comment", Json.str "test")] false rfl rfl

/-- C9: on a cache seeded with a payload but no version token, the first
`etag` access performs exactly one fetch and afterwards the cache pairs
the freshly fetched token with the ORIGINALLY seeded payload — the
payload component is untouched by the backfill, whatever payload the
backfill fetch returned. -/
theorem etag_backfill_keeps_payload (t : Transport) (s : ElementState)
    (m : Meta) (p : Json)
    (hm : s.meta = some m) (hc : s.cache = some (none, some p))
    (hmsg : (t.readReq m.href).msg = none) :
    Cache.etag t s =
      (PyRes.ok (t.readReq m.href).etag,
       { s with cache := some ((t.readReq m.href).etag, some p) },
       [NetCall.readCall m.href]) := by
  simp [Cache.etag, Cache.call, hc, ElementLocator.get, hm, hmsg]

/-- C9, witness: on the client-seeded instance the backfill stores token
"etag-2" next to the seeded `clientPayload`, even though the backfill
fetch returned the different `payload2`. -/
theorem etag_backfill_keeps_payload_witness :
    Cache.etag happyTransport seededState =
      (PyRes.ok (some "etag-2"),
       { seededState with cache := some (some "etag-2", some clientPayload) },
       [NetCall.readCall "/elements/host/12"]) ∧
    (happyTransport.readReq "/elements/host/12").json ≠ some clientPayload :=
  ⟨etag_backfill_keeps_payload happyTransport seededState sampleMeta
     clientPayload rfl rfl rfl, by decide⟩

/-- C10: when the fetch of an href yields no truthy JSON body (the read
failed, or the payload is empty), `ElementFactory` — and therefore
`Element.from_href` — returns `None` after its single read: no error is
raised (the factory's request carries no exception kind) and no instance
is produced. -/
theorem factory_returns_none_on_empty (registry : List (String × SMCClass))
    (t : Transport) (href : String)
    (h : truthyOpt (t.readReq href).json = false) :
    ElementFactory registry t href = (none, [NetCall.readCall href]) ∧
    Element.from_href registry t href = (none, [NetCall.readCall href]) := by
  constructor
  · simp [ElementFactory, h]
  · simp [Element.from_href, ElementFactory, h]

/-- C10, witness: against the server whose reads fail with no body, the
factory and `from_href` both return `None` after one read. -/
theorem factory_returns_none_on_empty_witness :
    ElementFactory sampleRegistry emptyReadTransport "/elements/host/99" =
      (none, [NetCall.readCall "/elements/host/99"]) ∧
    Element.from_href sampleRegistry emptyReadTransport "/elements/host/99" =
      (none, [NetCall.readCall "/elements/host/99"]) :=
  factory_returns_none_on_empty sampleRegistry emptyReadTransport
    "/elements/host/99" rfl

end SMC
